import Mathlib

/-!
Verification of the SEAL-Sim feedback-driven adaptation system.

The repository's `src/` tree contains the React frontend
(`src/frontend/src/api.ts`, `App.tsx`, `components/Dashboard.tsx` together
with the concatenated `FeedbackForm.tsx` and `AdaptationLog.tsx`).  Those
files are embedded directly below.  The backend core (FeedbackPool,
AdaptationPolicy, AdapterRegistry, ModelServingState,
AdaptationOrchestrator, AdaptationLog, StatusAggregator) is not under
`src/`; where a property depends on it, the relevant operation is modelled
from the design document and marked as such in its doc comment.
-/

set_option maxRecDepth 4096

/-! ## A small JSON value model

Used to state shape properties of the status payload: the TypeScript
interfaces of `api.ts` are structural contracts over JSON values, so we
express them as decidable shape predicates over a JSON-like type. -/

/-- JSON-like values: strings, (integral) numbers, arrays and objects. -/
inductive JVal where
  | jstr : String → JVal
  | jnum : Int → JVal
  | jarr : List JVal → JVal
  | jobj : List (String × JVal) → JVal

/-- Field lookup on a JSON object; `none` on non-objects or missing keys. -/
def jget : JVal → String → Option JVal
  | JVal.jobj fields, k => fields.lookup k
  | _, _ => none

/-- The looked-up field is present and is a string. -/
def isStr : Option JVal → Bool
  | some (JVal.jstr _) => true
  | _ => false

/-- The looked-up field is present and is a number. -/
def isNum : Option JVal → Bool
  | some (JVal.jnum _) => true
  | _ => false

/-- The looked-up field is a number or absent (an optional number field). -/
def isOptNum : Option JVal → Bool
  | some (JVal.jnum _) => true
  | none => true
  | _ => false

/-- The looked-up field is one of the three status literals
`'unloaded' | 'loading' | 'ready'` of `SystemStatus.model_status.status`
in `api.ts`. -/
def isStatusLiteral : Option JVal → Bool
  | some (JVal.jstr s) => s == "unloaded" || s == "loading" || s == "ready"
  | _ => false

/-- Shape of the `model_status` group of `SystemStatus` in `api.ts`:
`{status, base_model, current_adapter, device}`. -/
def modelStatusShape (j : JVal) : Bool :=
  isStatusLiteral (jget j "status") && isStr (jget j "base_model") &&
    isStr (jget j "current_adapter") && isStr (jget j "device")

/-- Shape of the `seal_policy` group of `SystemStatus` in `api.ts`:
`{feedback_count, feedback_threshold}`, both numbers. -/
def sealPolicyShape (j : JVal) : Bool :=
  isNum (jget j "feedback_count") && isNum (jget j "feedback_threshold")

/-- Shape of `AdaptationLogEntry` in `api.ts`:
`{blockNumber: number, timestamp: string, event: string, feedback_count?: number}`. -/
def adaptationLogEntryShape (j : JVal) : Bool :=
  isNum (jget j "blockNumber") && isStr (jget j "timestamp") &&
    isStr (jget j "event") && isOptNum (jget j "feedback_count")

/-- The looked-up field is present and satisfies the given shape. -/
def fieldIs (p : JVal → Bool) : Option JVal → Bool
  | some v => p v
  | none => false

/-- The looked-up field is an array all of whose elements satisfy the
given shape. -/
def arrayAll (p : JVal → Bool) : Option JVal → Bool
  | some (JVal.jarr es) => es.all p
  | _ => false

/-- Shape of `SystemStatus` in `api.ts`: the status payload returned by the
read surface `getStatus` (`GET /api/status`), with groups `model_status`,
`seal_policy`, `adaptation_log` and field `feedback_pool_size`. -/
def systemStatusShape (j : JVal) : Bool :=
  fieldIs modelStatusShape (jget j "model_status") &&
  fieldIs sealPolicyShape (jget j "seal_policy") &&
  arrayAll adaptationLogEntryShape (jget j "adaptation_log") &&
  isNum (jget j "feedback_pool_size")

/-- Shape of a log entry as worded by the design document's status-reporting
section: `{sequence_number, event, timestamp, feedback_count?}`.  Written
from the spec's words, to be compared with `adaptationLogEntryShape` taken
from the code. -/
def specLogEntryShape (j : JVal) : Bool :=
  isNum (jget j "sequence_number") && isStr (jget j "event") &&
    (jget j "timestamp").isSome && isOptNum (jget j "feedback_count")

/-- Shape of the status snapshot as worded by the design document's
status-reporting section: model status group, a policy group under the key
`policy`, an `adaptation_log` list of `specLogEntryShape` entries, and
`feedback_pool_size`.  Written from the spec's words, to be compared with
`systemStatusShape` taken from the code. -/
def specSnapshotShape (j : JVal) : Bool :=
  fieldIs modelStatusShape (jget j "model_status") &&
  fieldIs sealPolicyShape (jget j "policy") &&
  arrayAll specLogEntryShape (jget j "adaptation_log") &&
  isNum (jget j "feedback_pool_size")

/-- The amended snapshot shape: as the spec's wording, except that the
policy group is keyed `seal_policy` and a log entry's sequence field is
keyed `blockNumber`, as in the code's `SystemStatus` and
`AdaptationLogEntry` interfaces. -/
def amendedLogEntryShape (j : JVal) : Bool :=
  isNum (jget j "blockNumber") && isStr (jget j "event") &&
    (jget j "timestamp").isSome && isOptNum (jget j "feedback_count")

/-- The amended snapshot shape (see `amendedLogEntryShape`). -/
def amendedSnapshotShape (j : JVal) : Bool :=
  fieldIs modelStatusShape (jget j "model_status") &&
  fieldIs sealPolicyShape (jget j "seal_policy") &&
  arrayAll amendedLogEntryShape (jget j "adaptation_log") &&
  isNum (jget j "feedback_pool_size")

/-- A concrete status payload of exactly the shape `api.ts` declares. -/
def sampleStatusJson : JVal :=
  JVal.jobj
    [("model_status", JVal.jobj
        [("status", JVal.jstr "ready"), ("base_model", JVal.jstr "phi-2"),
         ("current_adapter", JVal.jstr "adapters/v1"),
         ("device", JVal.jstr "cuda")]),
     ("seal_policy", JVal.jobj
        [("feedback_count", JVal.jnum 1), ("feedback_threshold", JVal.jnum 3)]),
     ("adaptation_log", JVal.jarr
        [JVal.jobj
          [("blockNumber", JVal.jnum 1), ("timestamp", JVal.jstr "t0"),
           ("event", JVal.jstr "triggered"), ("feedback_count", JVal.jnum 3)]]),
     ("feedback_pool_size", JVal.jnum 0)]

/-! ## Frontend data model, from `src/frontend/src/api.ts` -/

/-- The `'unloaded' | 'loading' | 'ready'` literal union of
`SystemStatus.model_status.status`. -/
inductive ModelStatusKind where
  | unloaded
  | loading
  | ready
deriving DecidableEq

/-- Rendered text of a model status literal. -/
def ModelStatusKind.text : ModelStatusKind → String
  | ModelStatusKind.unloaded => "unloaded"
  | ModelStatusKind.loading => "loading"
  | ModelStatusKind.ready => "ready"

/-- The `model_status` group of `SystemStatus` (api.ts). -/
structure ModelStatusGroup where
  status : ModelStatusKind
  base_model : String
  current_adapter : String
  device : String
deriving DecidableEq

/-- The `seal_policy` group of `SystemStatus` (api.ts).  The TypeScript
`number` fields are modelled as rationals. -/
structure SealPolicyGroup where
  feedback_count : ℚ
  feedback_threshold : ℚ
deriving DecidableEq

/-- `AdaptationLogEntry` (api.ts): `blockNumber`, `timestamp`, `event`,
optional `feedback_count`. -/
structure AdaptationLogEntry where
  blockNumber : Int
  timestamp : String
  event : String
  feedback_count : Option Int
deriving DecidableEq

/-- `SystemStatus` (api.ts). -/
structure SystemStatus where
  model_status : ModelStatusGroup
  seal_policy : SealPolicyGroup
  adaptation_log : List AdaptationLogEntry
  feedback_pool_size : ℚ
deriving DecidableEq

/-- `FeedbackRequest` (api.ts), the body of `POST /api/submit_feedback`. -/
structure FeedbackRequest where
  prompt : String
  original_completion : String
  corrected_completion : String
deriving DecidableEq

/-! ## Dashboard component, from `src/frontend/src/components/Dashboard.tsx` -/

/-- `getStatusColor` (Dashboard.tsx): maps a status string to a colour
class, with a default for anything else. -/
def getStatusColor (modelState : String) : String :=
  if modelState == "ready" then "text-green-400"
  else if modelState == "loading" then "text-yellow-400"
  else if modelState == "unloaded" then "text-red-500"
  else "text-gray-400"

/-- `progressPercentage` (Dashboard.tsx): guarded division of the feedback
count by the threshold, scaled to a percentage; `0` when the threshold is
not positive. -/
def progressPercentage (p : SealPolicyGroup) : ℚ :=
  if p.feedback_threshold > 0 then
    p.feedback_count / p.feedback_threshold * 100
  else 0

/-- What the Dashboard component renders: either the loading placeholder
(the `if (!status)` branch) or the dashboard view with the data it
displays. -/
inductive DashboardRender where
  | loadingPlaceholder
  | view (statusColor statusText baseModel device adapter : String)
      (feedbackPool : ℚ) (progress : ℚ) (count threshold : ℚ)
deriving DecidableEq

/-- The `Dashboard` component (Dashboard.tsx) as a function of its
`status: SystemStatus | null` prop.  A JS object is always truthy, so
`!status` holds exactly for `null`. -/
def dashboard : Option SystemStatus → DashboardRender
  | none => DashboardRender.loadingPlaceholder
  | some s =>
      DashboardRender.view
        (getStatusColor s.model_status.status.text)
        s.model_status.status.text
        s.model_status.base_model
        s.model_status.device
        s.model_status.current_adapter
        s.feedback_pool_size
        (progressPercentage s.seal_policy)
        s.seal_policy.feedback_count
        s.seal_policy.feedback_threshold

/-- The progress figure shown by a render, if it shows one. -/
def DashboardRender.progress : DashboardRender → Option ℚ
  | DashboardRender.loadingPlaceholder => none
  | DashboardRender.view _ _ _ _ _ _ prog _ _ => some prog

/-! ## App component, from `src/frontend/src/App.tsx` -/

/-- The two pieces of App state that `fetchStatus` touches. -/
structure AppStatusState where
  systemStatus : Option SystemStatus
  error : Option String
deriving DecidableEq

/-- The error message `fetchStatus` installs on a failed fetch. -/
def fetchStatusErrorMsg : String := "Failed to connect to the backend. Is it running?"

/-- `fetchStatus` (App.tsx): on a resolved `getStatus` it stores the data
and clears the error; on a rejection it only sets the error message.  The
outcome of the awaited `getStatus()` call is passed explicitly. -/
def fetchStatus (s : AppStatusState) (result : Except String SystemStatus) :
    AppStatusState :=
  match result with
  | Except.ok statusData => { s with systemStatus := some statusData, error := none }
  | Except.error _ => { s with error := some fetchStatusErrorMsg }

/-- JS falsiness of a `string | null` value: `null` and the empty string
are falsy. -/
def jsFalsyStr : Option String → Bool
  | none => true
  | some s => s == ""

/-- JS `String.prototype.trim()`: strips whitespace from both ends. -/
def jsTrim (s : String) : String :=
  String.mk
    (((s.data.dropWhile Char.isWhitespace).reverse.dropWhile
        Char.isWhitespace).reverse)

/-- Observable actions the App handlers perform, in order. -/
inductive AppAction where
  | setIsSubmitting (b : Bool)
  | setFeedbackMessage (m : Option String)
  | submitFeedbackCall (req : FeedbackRequest)
  | fetchStatusCall
  | setErrorMsg (m : String)
deriving DecidableEq

/-- `handleSubmitFeedback` (App.tsx) as the ordered list of actions it
performs, given the current prompt/completion state, the corrected
completion argument, and the outcome of the awaited `submitFeedback` call
(`ok` carries the response message).  The guard
`if (!currentPrompt || !currentCompletion) return;` uses JS falsiness. -/
def handleSubmitFeedback (currentPrompt currentCompletion : Option String)
    (correctedCompletion : String) (result : Except String String) :
    List AppAction :=
  if jsFalsyStr currentPrompt || jsFalsyStr currentCompletion then []
  else
    [AppAction.setIsSubmitting true, AppAction.setFeedbackMessage none,
     AppAction.submitFeedbackCall
       { prompt := currentPrompt.getD ""
         original_completion := currentCompletion.getD ""
         corrected_completion := correctedCompletion }] ++
    (match result with
     | Except.ok msg =>
         [AppAction.setFeedbackMessage (some msg), AppAction.fetchStatusCall]
     | Except.error _ => [AppAction.setErrorMsg "Failed to submit feedback."]) ++
    [AppAction.setIsSubmitting false]

/-- Generic semantics of a JS `setInterval` registered at `registeredAt`
with period `period` and cancelled by `clearInterval` at `clearedAt`: the
callback fires at `registeredAt + k * period` for `k ≥ 1`, for firing
times before the cancellation. -/
def intervalFiresAt (registeredAt period clearedAt t : Nat) : Bool :=
  decide (registeredAt < t) && decide ((t - registeredAt) % period = 0) &&
    decide (t < clearedAt)

/-- The polling period (App.tsx: `setInterval(fetchStatus, 5000)`). -/
def POLL_INTERVAL_MS : Nat := 5000

/-- The status-fetch schedule of the App's mount effect (App.tsx): one
fetch immediately on mount (time `0`), plus the interval registered at
mount with period `POLL_INTERVAL_MS`, cleared by the unmount cleanup at
time `unmountAt`. -/
def appStatusFetchAt (unmountAt t : Nat) : Bool :=
  decide (t = 0) || intervalFiresAt 0 POLL_INTERVAL_MS unmountAt t

/-! ## AdaptationLog component, from `src/components/AdaptationLog.tsx`
(concatenated in `src/frontend/src/api.ts`) -/

/-- A heap of JS arrays of log entries: an allocation counter and the
contents at each address.  Addresses below `next` are allocated. -/
structure ArrayStore where
  next : Nat
  contents : Nat → List AdaptationLogEntry

/-- The spread `[...log]`: allocates a fresh array with the same elements. -/
def spreadCopy (st : ArrayStore) (src : Nat) : Nat × ArrayStore :=
  (st.next,
   { next := st.next + 1
     contents := fun i => if i = st.next then st.contents src else st.contents i })

/-- `Array.prototype.reverse`: reverses the receiver in place and returns
it. -/
def reverseInPlace (st : ArrayStore) (a : Nat) : Nat × ArrayStore :=
  (a,
   { st with
     contents := fun i => if i = a then (st.contents a).reverse else st.contents i })

/-- The `AdaptationLog` component (AdaptationLog.tsx) as the ordered list
of entry rows it renders from the array at address `a`: for a non-empty
log it maps over `[...log].reverse()`; for an empty log it renders the
placeholder text and no rows. -/
def renderAdaptationLog (st : ArrayStore) (a : Nat) :
    List AdaptationLogEntry × ArrayStore :=
  if (st.contents a).length > 0 then
    let copied := spreadCopy st a
    let reversed := reverseInPlace copied.2 copied.1
    (reversed.2.contents reversed.1, reversed.2)
  else ([], st)

/-! ## FeedbackForm component, from `src/components/FeedbackForm.tsx`
(concatenated in `src/frontend/src/components/Dashboard.tsx`) -/

/-- The guard of `handleSubmit` (FeedbackForm.tsx): `onSubmitFeedback` is
invoked iff
`!(!prompt || !originalCompletion || !correctedCompletion.trim() || isSubmitting)`,
where `!x` is JS falsiness (empty strings are falsy, and so is the empty
trim result). -/
def feedbackFormSubmits (prompt originalCompletion : Option String)
    (correctedCompletion : String) (isSubmitting : Bool) : Bool :=
  !(jsFalsyStr prompt || jsFalsyStr originalCompletion ||
    jsTrim correctedCompletion == "" || isSubmitting)

/-! ## The adaptation core

The backend core is not under `src/`; every definition in this section is
modelled from the design document, as its doc comment records. -/

/-- Modelled from the spec: `FeedbackItem` — prompt, original completion,
corrected completion and a received-at timestamp; immutable once
created. -/
structure FeedbackItem where
  prompt : String
  original_completion : String
  corrected_completion : String
  received_at : Nat
deriving DecidableEq

/-- Modelled from the spec: a feedback item is valid when none of its three
text fields is empty after trimming. -/
def validFeedbackItem (it : FeedbackItem) : Bool :=
  !(jsTrim it.prompt == "") && !(jsTrim it.original_completion == "") &&
    !(jsTrim it.corrected_completion == "")

/-- Modelled from the spec: the error taxonomy of the error-handling
design. -/
inductive SealError where
  | validationError
  | storageError
  | trainingFailure
  | notFoundError
deriving DecidableEq

/-- Modelled from the spec: `FeedbackPool.submit(item)` — appends the item
to the pool, or fails with `ValidationError` (leaving no new pool state)
when a text field of the item is empty after trimming. -/
def FeedbackPool.submit (pool : List FeedbackItem) (it : FeedbackItem) :
    Except SealError (List FeedbackItem) :=
  if validFeedbackItem it then Except.ok (pool ++ [it])
  else Except.error SealError.validationError

/-- Modelled from the spec: `AdaptationPolicy.should_trigger(pool_size,
threshold)` — true iff `pool_size >= threshold` and `threshold > 0`. -/
def should_trigger (pool_size threshold : Nat) : Bool :=
  decide (pool_size ≥ threshold) && decide (threshold > 0)

/-- Modelled from the spec: the event of an `AdaptationLogEntry` of the
core audit log. -/
inductive AdaptEvent where
  | triggered
  | completed
  | failed
deriving DecidableEq

/-- Modelled from the spec: a core `AdaptationLogEntry` — sequence number,
event, timestamp, and a feedback count present only on
triggered/completed entries. -/
structure CoreLogEntry where
  sequence_number : Nat
  event : AdaptEvent
  timestamp : Nat
  feedback_count : Option Nat
deriving DecidableEq

/-- Modelled from the spec: the append-only `AdaptationLog`; `start` is the
first sequence number handed out (the spec allows 0 or 1). -/
structure AdaptationLogState where
  start : Nat
  entries : List CoreLogEntry
deriving DecidableEq

/-- Modelled from the spec: `AdaptationLog.append` assigns the next
sequence number and appends the entry at the end (so entries are delivered
newest-last). -/
def AdaptationLogState.append (lg : AdaptationLogState) (ev : AdaptEvent)
    (ts : Nat) (fc : Option Nat) : AdaptationLogState :=
  { lg with
    entries := lg.entries ++
      [{ sequence_number := lg.start + lg.entries.length, event := ev,
         timestamp := ts, feedback_count := fc }] }

/-- Modelled from the spec: `AdapterVersion` — version id, creation time,
feedback count it was trained from, and an opaque storage reference. -/
structure AdapterVersion where
  version_id : Nat
  created_at : Nat
  source_feedback_count : Nat
  storage_reference : String
deriving DecidableEq

/-- Modelled from the spec: `AdapterRegistry` — an append-only sequence of
versions plus one nullable active-version pointer. -/
structure AdapterRegistry where
  versions : List AdapterVersion
  active_version_id : Option Nat
deriving DecidableEq

/-- The registry invariant of the spec: the active pointer, if non-null,
references an entry present in the sequence. -/
def activeRegistered (r : AdapterRegistry) : Bool :=
  match r.active_version_id with
  | none => true
  | some id => (r.versions.map AdapterVersion.version_id).contains id

/-- Modelled from the spec: the serving status enum of
`ModelServingState`. -/
inductive ServeStatus where
  | unloaded
  | loading
  | ready
deriving DecidableEq

/-- Modelled from the spec: `ModelServingState` — status, base model id,
the mounted adapter (a version id or none), and the device. -/
structure ModelServingState where
  status : ServeStatus
  base_model_id : String
  active_adapter : Option Nat
  device : String
deriving DecidableEq

/-- Modelled from the spec: the state owned by one
`AdaptationOrchestrator` instance: the feedback pool, the configured
threshold, the single job slot, the batches of the retraining cycles
currently executing (the type allows several so that mutual exclusion is a
theorem, not a typing artifact), the registry, the serving state, the
audit log, and the next fresh version id. -/
structure CoreState where
  pool : List FeedbackItem
  threshold : Nat
  slotHeld : Bool
  inFlight : List (List FeedbackItem)
  registry : AdapterRegistry
  serving : ModelServingState
  log : AdaptationLogState
  nextVersion : Nat

/-- Labels of the core's atomic steps.  `tick` is a pure passage-of-time
label: the core has no rule for it, which is exactly the design's
"edge-triggered, not timer-driven" discipline. -/
inductive CoreLabel where
  | submit (it : FeedbackItem)
  | finishSuccess (ref : String) (ts : Nat)
  | finishFail (ts : Nat)
  | tick

/-- Modelled from the spec: the atomic steps of the core under the
orchestrator algorithm.  A `submit` step is `FeedbackPool.submit` followed
by `on_feedback_submitted`: if the policy does not trigger, only the pool
grows; if it triggers while the slot is held, the caller returns
immediately and its item stays in the pool; if it triggers with the slot
free, the slot is acquired, a `triggered` entry is appended, the pool is
drained into the cycle's batch, and serving moves to `loading`.  A
`finishSuccess` step registers a fresh-reference artifact, activates it,
remounts, returns to `ready`, appends `completed`, and releases the slot;
a `finishFail` step (runner failure or cancellation) returns to `ready`
with everything else as before, appends `failed`, and releases the slot —
the drained batch is not re-inserted. -/
inductive CoreStep : CoreState → CoreLabel → CoreState → Prop where
  | submitNoTrigger (s : CoreState) (it : FeedbackItem) (hv : validFeedbackItem it = true)
      (ht : should_trigger (s.pool.length + 1) s.threshold = false) :
      CoreStep s (CoreLabel.submit it) { s with pool := s.pool ++ [it] }
  | submitBusy (s : CoreState) (it : FeedbackItem) (hv : validFeedbackItem it = true)
      (ht : should_trigger (s.pool.length + 1) s.threshold = true)
      (hb : s.slotHeld = true) :
      CoreStep s (CoreLabel.submit it) { s with pool := s.pool ++ [it] }
  | submitTrigger (s : CoreState) (it : FeedbackItem) (ts : Nat)
      (hv : validFeedbackItem it = true)
      (ht : should_trigger (s.pool.length + 1) s.threshold = true)
      (hb : s.slotHeld = false) :
      CoreStep s (CoreLabel.submit it)
        { s with
          pool := []
          slotHeld := true
          inFlight := (s.pool ++ [it]) :: s.inFlight
          serving := { s.serving with status := ServeStatus.loading }
          log := s.log.append AdaptEvent.triggered ts (some (s.pool.length + 1)) }
  | finishSuccess (s : CoreState) (batch : List FeedbackItem)
      (rest : List (List FeedbackItem)) (ref : String) (ts : Nat)
      (hin : s.inFlight = batch :: rest)
      (hfresh : (s.registry.versions.map AdapterVersion.storage_reference).contains ref = false) :
      CoreStep s (CoreLabel.finishSuccess ref ts)
        { s with
          slotHeld := false
          inFlight := rest
          registry :=
            { versions := s.registry.versions ++
                [{ version_id := s.nextVersion, created_at := ts,
                   source_feedback_count := batch.length, storage_reference := ref }]
              active_version_id := some s.nextVersion }
          serving := { s.serving with
            status := ServeStatus.ready
            active_adapter := some s.nextVersion }
          log := s.log.append AdaptEvent.completed ts (some batch.length)
          nextVersion := s.nextVersion + 1 }
  | finishFail (s : CoreState) (batch : List FeedbackItem)
      (rest : List (List FeedbackItem)) (ts : Nat)
      (hin : s.inFlight = batch :: rest) :
      CoreStep s (CoreLabel.finishFail ts)
        { s with
          slotHeld := false
          inFlight := rest
          serving := { s.serving with status := ServeStatus.ready }
          log := s.log.append AdaptEvent.failed ts none }

/-- Modelled from the spec: the core's initial state — empty pool, slot
free, no cycle in flight, empty registry with a null active pointer, the
base model unloaded with no adapter mounted, an empty log whose first
sequence number will be `logStart`, and fresh version ids from 1. -/
def initCore (baseModel device : String) (thr logStart : Nat) : CoreState :=
  { pool := []
    threshold := thr
    slotHeld := false
    inFlight := []
    registry := { versions := [], active_version_id := none }
    serving :=
      { status := ServeStatus.unloaded, base_model_id := baseModel,
        active_adapter := none, device := device }
    log := { start := logStart, entries := [] }
    nextVersion := 1 }

/-- States reachable from `init` by core steps. -/
inductive CoreReachable (init : CoreState) : CoreState → Prop where
  | refl : CoreReachable init init
  | step {s : CoreState} {l : CoreLabel} {s' : CoreState} :
      CoreReachable init s → CoreStep s l s' → CoreReachable init s'

/-- Modelled from the spec: the serialization boundary between the core
log and the frontend — a core entry's sequence number becomes the
`blockNumber` of the `AdaptationLogEntry` consumed by the frontend (the
backend serializer is not under `src/`). -/
def eventText : AdaptEvent → String
  | AdaptEvent.triggered => "triggered"
  | AdaptEvent.completed => "completed"
  | AdaptEvent.failed => "failed"

/-- Modelled from the spec: see `eventText`. -/
def CoreLogEntry.toFrontend (e : CoreLogEntry) : AdaptationLogEntry :=
  { blockNumber := Int.ofNat e.sequence_number
    timestamp := toString e.timestamp
    event := eventText e.event
    feedback_count := e.feedback_count.map Int.ofNat }

/-! ## Concrete data used by the witnesses -/

/-- A concrete log entry. -/
def sampleEntryA : AdaptationLogEntry :=
  { blockNumber := 1, timestamp := "t0", event := "triggered",
    feedback_count := some 3 }

/-- A second concrete log entry. -/
def sampleEntryB : AdaptationLogEntry :=
  { blockNumber := 2, timestamp := "t1", event := "completed",
    feedback_count := some 3 }

/-- A store with one allocated array holding two log entries. -/
def sampleStore : ArrayStore :=
  { next := 1
    contents := fun i => if i = 0 then [sampleEntryA, sampleEntryB] else [] }

/-- A concrete valid feedback item. -/
def sampleItem : FeedbackItem :=
  { prompt := "2+2?", original_completion := "5", corrected_completion := "4",
    received_at := 7 }

/-- A concrete invalid feedback item: the prompt is whitespace only. -/
def sampleBadItem : FeedbackItem :=
  { prompt := " ", original_completion := "5", corrected_completion := "4",
    received_at := 7 }

/-- A core state with one retraining cycle in flight. -/
def sampleBusyState : CoreState :=
  { pool := []
    threshold := 1
    slotHeld := true
    inFlight := [[sampleItem]]
    registry := { versions := [], active_version_id := none }
    serving :=
      { status := ServeStatus.loading, base_model_id := "phi-2",
        active_adapter := none, device := "cuda" }
    log :=
      { start := 0
        entries :=
          [{ sequence_number := 0, event := AdaptEvent.triggered,
             timestamp := 3, feedback_count := some 1 }] }
    nextVersion := 1 }

/-- The state after the in-flight cycle of `sampleBusyState` fails at
time 9: slot released, back to `ready`, a `failed` entry appended. -/
def sampleFailedState : CoreState :=
  { sampleBusyState with
    slotHeld := false
    inFlight := []
    serving := { sampleBusyState.serving with status := ServeStatus.ready }
    log := sampleBusyState.log.append AdaptEvent.failed 9 none }

/-- A concrete status whose threshold is zero. -/
def sampleStatusZero : SystemStatus :=
  { model_status :=
      { status := ModelStatusKind.ready, base_model := "phi-2",
        current_adapter := "base", device := "cpu" }
    seal_policy := { feedback_count := 2, feedback_threshold := 0 }
    adaptation_log := []
    feedback_pool_size := 2 }

/-- A concrete status with threshold four and one feedback item. -/
def sampleStatusFour : SystemStatus :=
  { model_status :=
      { status := ModelStatusKind.ready, base_model := "phi-2",
        current_adapter := "base", device := "cpu" }
    seal_policy := { feedback_count := 1, feedback_threshold := 4 }
    adaptation_log := []
    feedback_pool_size := 1 }

/-- The mutual-exclusion invariant of the core: at most one retraining
cycle is in flight, and the job slot is held exactly while one is. -/
def mutexInv (s : CoreState) : Prop :=
  s.inFlight.length ≤ 1 ∧ (s.slotHeld = true ↔ s.inFlight ≠ [])

/-- The audit-log invariant of the core: the sequence numbers of the log's
entries, in order, are exactly the consecutive run starting at the log's
first sequence number. -/
def logSeqInv (s : CoreState) : Prop :=
  s.log.entries.map CoreLogEntry.sequence_number =
    List.range' s.log.start s.log.entries.length

/-! ## Theorems -/

theorem isStr_isSome {o : Option JVal} (h : isStr o = true) : o.isSome = true := by
  cases o with
  | none => simp [isStr] at h
  | some v => cases v <;> simp_all [isStr, Option.isSome]

theorem arrayAll_mono {p q : JVal → Bool} (hpq : ∀ j, p j = true → q j = true)
    {o : Option JVal} (h : arrayAll p o = true) : arrayAll q o = true := by
  cases o with
  | none => simp [arrayAll] at h
  | some v =>
      cases v <;> simp_all [arrayAll, List.all_eq_true]

theorem codeEntry_amendedEntry {j : JVal} (h : adaptationLogEntryShape j = true) :
    amendedLogEntryShape j = true := by
  simp only [adaptationLogEntryShape, Bool.and_eq_true] at h
  obtain ⟨⟨⟨h1, h2⟩, h3⟩, h4⟩ := h
  simp only [amendedLogEntryShape, Bool.and_eq_true]
  exact ⟨⟨⟨h1, h3⟩, isStr_isSome h2⟩, h4⟩

theorem coreStep_mutexInv {s : CoreState} {l : CoreLabel} {s' : CoreState}
    (hstep : CoreStep s l s') (hinv : mutexInv s) : mutexInv s' := by
  obtain ⟨hlen, hiff⟩ := hinv
  cases hstep with
  | submitNoTrigger it hv ht => exact ⟨hlen, hiff⟩
  | submitBusy it hv ht hb => exact ⟨hlen, hiff⟩
  | submitTrigger it ts hv ht hb =>
      have hemp : s.inFlight = [] := by
        by_contra hne
        rw [hiff.mpr hne] at hb
        exact Bool.noConfusion hb
      refine ⟨?_, ?_⟩
      · simp [mutexInv, hemp]
      · simp
  | finishSuccess batch rest ref ts hin hfresh =>
      have hlen' : (batch :: rest).length ≤ 1 := hin ▸ hlen
      have hrest : rest = [] := by
        simp only [List.length_cons] at hlen'
        exact List.length_eq_zero.mp (Nat.le_zero.mp (Nat.le_of_succ_le_succ hlen'))
      refine ⟨?_, ?_⟩
      · simp [hrest]
      · simp [hrest]
  | finishFail batch rest ts hin =>
      have hlen' : (batch :: rest).length ≤ 1 := hin ▸ hlen
      have hrest : rest = [] := by
        simp only [List.length_cons] at hlen'
        exact List.length_eq_zero.mp (Nat.le_zero.mp (Nat.le_of_succ_le_succ hlen'))
      refine ⟨?_, ?_⟩
      · simp [hrest]
      · simp [hrest]

theorem reachable_mutexInv {init s : CoreState} (hinit : mutexInv init)
    (h : CoreReachable init s) : mutexInv s := by
  induction h with
  | refl => exact hinit
  | step hr hs ih => exact coreStep_mutexInv hs ih

theorem append_logSeq (lg : AdaptationLogState) (ev : AdaptEvent) (ts : Nat)
    (fc : Option Nat)
    (h : lg.entries.map CoreLogEntry.sequence_number =
      List.range' lg.start lg.entries.length) :
    (lg.append ev ts fc).entries.map CoreLogEntry.sequence_number =
      List.range' (lg.append ev ts fc).start (lg.append ev ts fc).entries.length := by
  simp [AdaptationLogState.append, h, List.range'_1_concat]

theorem coreStep_logSeq {s : CoreState} {l : CoreLabel} {s' : CoreState}
    (hstep : CoreStep s l s') (h : logSeqInv s) :
    logSeqInv s' ∧ s'.log.start = s.log.start := by
  cases hstep with
  | submitNoTrigger it hv ht => exact ⟨h, rfl⟩
  | submitBusy it hv ht hb => exact ⟨h, rfl⟩
  | submitTrigger it ts hv ht hb =>
      exact ⟨append_logSeq _ _ _ _ h, rfl⟩
  | finishSuccess batch rest ref ts hin hfresh =>
      exact ⟨append_logSeq _ _ _ _ h, rfl⟩
  | finishFail batch rest ts hin =>
      exact ⟨append_logSeq _ _ _ _ h, rfl⟩

theorem reachable_logSeq {init s : CoreState} (hinit : logSeqInv init)
    (h : CoreReachable init s) :
    logSeqInv s ∧ s.log.start = init.log.start := by
  induction h with
  | refl => exact ⟨hinit, rfl⟩
  | step hr hs ih =>
      obtain ⟨h1, h2⟩ := ih
      obtain ⟨h1', h2'⟩ := coreStep_logSeq hs h1
      exact ⟨h1', h2'.trans h2⟩

/-- C1 counterexample: a payload of exactly the shape the code's
`SystemStatus` interface declares does not match the §6 wording the claim
states, because the policy group is keyed `seal_policy` (not `policy`) and
log entries carry `blockNumber` (not `sequence_number`). -/
theorem c1_shape_counterexample :
    systemStatusShape sampleStatusJson = true ∧
      specSnapshotShape sampleStatusJson = false := by
  exact ⟨rfl, rfl⟩

/-- C1 (amended): every status snapshot of the shape the status read
surface declares (`SystemStatus` in api.ts) has a model status group
{status, base_model, current_adapter, device}, a policy group named
`seal_policy` with {feedback_count, feedback_threshold}, an
`adaptation_log` that is an ordered list of entries
{blockNumber, event, timestamp, feedback_count?}, and a
`feedback_pool_size`. -/
theorem c1_snapshot_shape (j : JVal) (h : systemStatusShape j = true) :
    amendedSnapshotShape j = true := by
  simp only [systemStatusShape, Bool.and_eq_true] at h
  obtain ⟨⟨⟨hm, hp⟩, hl⟩, hn⟩ := h
  simp only [amendedSnapshotShape, Bool.and_eq_true]
  exact ⟨⟨⟨hm, hp⟩, arrayAll_mono (fun e he => codeEntry_amendedEntry he) hl⟩, hn⟩

/-- C1 witness: the amended shape at the concrete payload. -/
theorem c1_snapshot_shape_witness : amendedSnapshotShape sampleStatusJson = true :=
  c1_snapshot_shape sampleStatusJson rfl

/-- C2: the core log appends new entries at the end (delivered
newest-last), and the `AdaptationLog` component renders, for every log
array, exactly the entries of the input in exactly reversed order
(newest-first) while leaving the input array's contents unchanged (it
reverses a spread copy, not the input). -/
theorem c2_adaptation_log_display :
    (∀ (lg : AdaptationLogState) (ev : AdaptEvent) (ts : Nat) (fc : Option Nat),
       (lg.append ev ts fc).entries =
         lg.entries ++
           [{ sequence_number := lg.start + lg.entries.length, event := ev,
              timestamp := ts, feedback_count := fc }]) ∧
    (∀ (st : ArrayStore) (a : Nat), a < st.next →
       (renderAdaptationLog st a).1 = (st.contents a).reverse ∧
       ((renderAdaptationLog st a).2).contents a = st.contents a) := by
  constructor
  · intro lg ev ts fc; rfl
  · intro st a ha
    by_cases hlen : (st.contents a).length > 0
    · have hne : a ≠ st.next := Nat.ne_of_lt ha
      constructor
      · simp [renderAdaptationLog, hlen, spreadCopy, reverseInPlace]
      · simp [renderAdaptationLog, hlen, spreadCopy, reverseInPlace, hne]
    · have hnil : st.contents a = [] :=
        List.length_eq_zero.mp (Nat.le_zero.mp (Nat.not_lt.mp hlen))
      constructor
      · simp [renderAdaptationLog, hlen, hnil]
      · simp [renderAdaptationLog, hlen]

/-- C2 witness: the component's render of a concrete two-entry array. -/
theorem c2_adaptation_log_display_witness :
    (renderAdaptationLog sampleStore 0).1 = (sampleStore.contents 0).reverse ∧
      ((renderAdaptationLog sampleStore 0).2).contents 0 = sampleStore.contents 0 :=
  c2_adaptation_log_display.2 sampleStore 0 (by decide)

/-- C3: `FeedbackPool.submit` fails with `ValidationError` (returning no
new pool state) whenever the prompt, original completion or corrected
completion is empty after trimming; and the feedback form's submit guard
never invokes `onSubmitFeedback` when the corrected completion trims to
the empty string or when no prompt or original completion exists. -/
theorem c3_validation_rejects :
    (∀ (pool : List FeedbackItem) (it : FeedbackItem),
       (jsTrim it.prompt = "" ∨ jsTrim it.original_completion = "" ∨
         jsTrim it.corrected_completion = "") →
       FeedbackPool.submit pool it = Except.error SealError.validationError) ∧
    (∀ (prompt originalCompletion : Option String) (corrected : String)
       (isSubmitting : Bool),
       (jsTrim corrected = "" ∨ prompt = none ∨ originalCompletion = none) →
       feedbackFormSubmits prompt originalCompletion corrected isSubmitting =
         false) := by
  constructor
  · intro pool it h
    have hv : validFeedbackItem it = false := by
      rcases h with h | h | h <;> simp [validFeedbackItem, h]
    simp [FeedbackPool.submit, hv]
  · intro prompt originalCompletion corrected isSubmitting h
    rcases h with h | h | h
    · simp [feedbackFormSubmits, h]
    · simp [feedbackFormSubmits, h, jsFalsyStr]
    · simp [feedbackFormSubmits, h, jsFalsyStr]

/-- C3 witness: a whitespace-only prompt is rejected, and the form guard
refuses a whitespace-only corrected completion. -/
theorem c3_validation_rejects_witness :
    FeedbackPool.submit [] sampleBadItem =
        Except.error SealError.validationError ∧
      feedbackFormSubmits (some "2+2?") (some "5") "  " false = false :=
  ⟨c3_validation_rejects.1 [] sampleBadItem (Or.inl (by decide)),
   c3_validation_rejects.2 (some "2+2?") (some "5") "  " false
     (Or.inl (by decide))⟩

/-- C4: in every state reachable under any interleaving of core steps, at
most one retraining cycle is in flight (the single job slot guarantees no
two cycles are simultaneously in the triggered/loading phase), and a
submission arriving while the slot is held returns immediately: its item
is appended to the pool and nothing else changes. -/
theorem c4_single_flight :
    (∀ (bm dev : String) (thr ls : Nat) (s : CoreState),
       CoreReachable (initCore bm dev thr ls) s → s.inFlight.length ≤ 1) ∧
    (∀ (s : CoreState) (it : FeedbackItem) (s' : CoreState),
       CoreStep s (CoreLabel.submit it) s' → s.slotHeld = true →
       s'.pool = s.pool ++ [it] ∧ s'.inFlight = s.inFlight ∧
         s'.slotHeld = true ∧ s'.registry = s.registry ∧
         s'.serving = s.serving ∧ s'.log = s.log) := by
  constructor
  · intro bm dev thr ls s h
    have hinit : mutexInv (initCore bm dev thr ls) := by
      constructor <;> simp [initCore]
    exact (reachable_mutexInv hinit h).1
  · intro s it s' hstep hslot
    cases hstep with
    | submitNoTrigger hv ht => exact ⟨rfl, rfl, hslot, rfl, rfl, rfl⟩
    | submitBusy hv ht hb => exact ⟨rfl, rfl, hslot, rfl, rfl, rfl⟩
    | submitTrigger ts hv ht hb => simp_all

/-- C4 witness: the bound at the initial state, and a concrete submission
during an in-flight cycle that leaves the in-flight set unchanged. -/
theorem c4_single_flight_witness :
    (initCore "phi-2" "cuda" 3 0).inFlight.length ≤ 1 ∧
      ({ sampleBusyState with
          pool := sampleBusyState.pool ++ [sampleItem] } : CoreState).inFlight =
        sampleBusyState.inFlight :=
  ⟨c4_single_flight.1 "phi-2" "cuda" 3 0 _ CoreReachable.refl,
   (c4_single_flight.2 sampleBusyState sampleItem _
      (CoreStep.submitBusy sampleBusyState sampleItem (by decide) (by decide) rfl)
      rfl).2.1⟩

/-- C5: when a retraining cycle's runner invocation fails or is cancelled
(a `finishFail` step), the registry — and with it `active()` — is exactly
what it was before, serving is `ready` with the previous adapter still
mounted, and exactly one `failed` entry is appended to the log; submit
steps never touch the registry or the mounted adapter (so the registry
equals its value from before the whole cycle); and no step ever activates
an unregistered (partial) adapter. -/
theorem c5_failed_cycle :
    (∀ (s : CoreState) (ts : Nat) (s' : CoreState),
       CoreStep s (CoreLabel.finishFail ts) s' →
       s'.registry = s.registry ∧ s'.serving.status = ServeStatus.ready ∧
         s'.serving.active_adapter = s.serving.active_adapter ∧
         s'.log.entries = s.log.entries ++
           [{ sequence_number := s.log.start + s.log.entries.length,
              event := AdaptEvent.failed, timestamp := ts,
              feedback_count := none }]) ∧
    (∀ (s : CoreState) (it : FeedbackItem) (s' : CoreState),
       CoreStep s (CoreLabel.submit it) s' →
       s'.registry = s.registry ∧
         s'.serving.active_adapter = s.serving.active_adapter) ∧
    (∀ (s : CoreState) (l : CoreLabel) (s' : CoreState),
       CoreStep s l s' → activeRegistered s.registry = true →
       activeRegistered s'.registry = true) := by
  refine ⟨?_, ?_, ?_⟩
  · intro s ts s' hstep
    cases hstep with
    | finishFail batch rest hin => exact ⟨rfl, rfl, rfl, rfl⟩
  · intro s it s' hstep
    cases hstep with
    | submitNoTrigger hv ht => exact ⟨rfl, rfl⟩
    | submitBusy hv ht hb => exact ⟨rfl, rfl⟩
    | submitTrigger ts hv ht hb => exact ⟨rfl, rfl⟩
  · intro s l s' hstep h
    cases hstep with
    | submitNoTrigger hv ht => exact h
    | submitBusy hv ht hb => exact h
    | submitTrigger ts hv ht hb => exact h
    | finishFail batch rest ts hin => exact h
    | finishSuccess batch rest ref ts hin hfresh =>
        simp [activeRegistered]

/-- C5 witness: a concrete failing cycle out of `sampleBusyState`. -/
theorem c5_failed_cycle_witness :
    sampleFailedState.registry = sampleBusyState.registry ∧
      sampleFailedState.serving.status = ServeStatus.ready ∧
      activeRegistered sampleFailedState.registry = true := by
  have hstep : CoreStep sampleBusyState (CoreLabel.finishFail 9) sampleFailedState :=
    CoreStep.finishFail sampleBusyState [sampleItem] [] 9 rfl
  have h := c5_failed_cycle.1 sampleBusyState 9 sampleFailedState hstep
  have h3 := c5_failed_cycle.2.2 sampleBusyState (CoreLabel.finishFail 9)
    sampleFailedState hstep (by decide)
  exact ⟨h.1, h.2.1, h3⟩

/-- C6: in every reachable core state, the sequence numbers of the log's
entries in order are exactly the consecutive run starting at the log's
configured first number (0 or 1) — strictly increasing, gap-free and
unique across any mix of triggered/completed/failed events — and the
`blockNumber` keys of the entries as displayed by the frontend (the
serialized entries in the component's reversed order) are pairwise
distinct. -/
theorem c6_sequence_numbers :
    ∀ (bm dev : String) (thr ls : Nat) (s : CoreState),
      (ls = 0 ∨ ls = 1) → CoreReachable (initCore bm dev thr ls) s →
      s.log.entries.map CoreLogEntry.sequence_number =
          List.range' ls s.log.entries.length ∧
        (s.log.entries.map CoreLogEntry.sequence_number).Pairwise (· < ·) ∧
        (s.log.entries.map CoreLogEntry.sequence_number).Nodup ∧
        ((s.log.entries.map CoreLogEntry.toFrontend).reverse.map
            AdaptationLogEntry.blockNumber).Nodup := by
  intro bm dev thr ls s hls h
  have hinit : logSeqInv (initCore bm dev thr ls) := by
    simp [logSeqInv, initCore]
  obtain ⟨hinv, hstart⟩ := reachable_logSeq hinit h
  rw [logSeqInv] at hinv
  rw [show (initCore bm dev thr ls).log.start = ls from rfl] at hstart
  rw [hstart] at hinv
  have hnd : (s.log.entries.map CoreLogEntry.sequence_number).Nodup := by
    rw [hinv]; exact List.nodup_range' _ _
  refine ⟨hinv, ?_, hnd, ?_⟩
  · rw [hinv]
    have := List.pairwise_lt_range' ls s.log.entries.length 1
    simpa using this
  · have hmap : ((s.log.entries.map CoreLogEntry.sequence_number).map
        (fun n : Nat => (n : Int))).Nodup :=
      hnd.map (fun a b hab => by exact_mod_cast hab)
    simpa [List.map_reverse, List.nodup_reverse, List.map_map,
      CoreLogEntry.toFrontend, Function.comp] using hmap

/-- C6 witness: the invariant instantiated at the initial state. -/
theorem c6_sequence_numbers_witness :
    (initCore "phi-2" "cuda" 3 0).log.entries.map CoreLogEntry.sequence_number =
        List.range' 0 (initCore "phi-2" "cuda" 3 0).log.entries.length ∧
      ((initCore "phi-2" "cuda" 3 0).log.entries.map
          CoreLogEntry.sequence_number).Pairwise (· < ·) ∧
      ((initCore "phi-2" "cuda" 3 0).log.entries.map
          CoreLogEntry.sequence_number).Nodup ∧
      (((initCore "phi-2" "cuda" 3 0).log.entries.map
            CoreLogEntry.toFrontend).reverse.map
          AdaptationLogEntry.blockNumber).Nodup :=
  c6_sequence_numbers "phi-2" "cuda" 3 0 (initCore "phi-2" "cuda" 3 0)
    (Or.inl rfl) CoreReachable.refl

/-- C7: timer-driven polling exists only in the presentation layer — the
App effect fetches status exactly at mount (time 0) and at every whole
multiple of 5000 ms before the unmount cleanup clears the interval; after
a successful feedback submission the handler performs exactly one
additional immediate status fetch (right after recording the response
message); and the core has no timer step at all — a `tick` label has no
transition, so triggering is evaluated only on submission. -/
theorem c7_polling_boundary :
    (∀ u t : Nat, appStatusFetchAt u t = true ↔
       (t = 0 ∨ (0 < t ∧ t % POLL_INTERVAL_MS = 0 ∧ t < u))) ∧
    (∀ (p c corrected m : String), ¬p = "" → ¬c = "" →
       handleSubmitFeedback (some p) (some c) corrected (Except.ok m) =
         [AppAction.setIsSubmitting true, AppAction.setFeedbackMessage none,
          AppAction.submitFeedbackCall
            { prompt := p, original_completion := c,
              corrected_completion := corrected },
          AppAction.setFeedbackMessage (some m), AppAction.fetchStatusCall,
          AppAction.setIsSubmitting false]) ∧
    (∀ (s s' : CoreState), ¬CoreStep s CoreLabel.tick s') := by
  refine ⟨?_, ?_, ?_⟩
  · intro u t
    simp only [appStatusFetchAt, intervalFiresAt, POLL_INTERVAL_MS,
      Bool.or_eq_true, Bool.and_eq_true, decide_eq_true_eq, Nat.sub_zero]
    tauto
  · intro p c corrected m hp hc
    simp [handleSubmitFeedback, jsFalsyStr, hp, hc]
  · intro s s' h
    cases h

/-- C7 witness: the schedule at concrete times, and a concrete successful
submission's action list. -/
theorem c7_polling_boundary_witness :
    appStatusFetchAt 20000 5000 = true ∧
      handleSubmitFeedback (some "2+2?") (some "5") "4" (Except.ok "ok") =
        [AppAction.setIsSubmitting true, AppAction.setFeedbackMessage none,
         AppAction.submitFeedbackCall
           { prompt := "2+2?", original_completion := "5",
             corrected_completion := "4" },
         AppAction.setFeedbackMessage (some "ok"), AppAction.fetchStatusCall,
         AppAction.setIsSubmitting false] :=
  ⟨(c7_polling_boundary.1 20000 5000).mpr (Or.inr (by decide)),
   c7_polling_boundary.2.1 "2+2?" "5" "4" "ok" (by decide) (by decide)⟩

/-- C8: the Dashboard component is total over its
`SystemStatus | null` prop: the `null` input renders the loading
placeholder (touching no field of a status object), and every non-null
input renders the full view computed from the status's fields. -/
theorem c8_dashboard_total :
    dashboard none = DashboardRender.loadingPlaceholder ∧
      ∀ s : SystemStatus,
        dashboard (some s) =
          DashboardRender.view (getStatusColor s.model_status.status.text)
            s.model_status.status.text s.model_status.base_model
            s.model_status.device s.model_status.current_adapter
            s.feedback_pool_size (progressPercentage s.seal_policy)
            s.seal_policy.feedback_count s.seal_policy.feedback_threshold :=
  ⟨rfl, fun _ => rfl⟩

/-- C9: a failed status fetch is atomic with respect to the displayed
state — on a rejected `getStatus` the stored status is unchanged and only
the error message is set, and every successful fetch replaces the status
and clears the error. -/
theorem c9_fetch_atomicity :
    (∀ (s : AppStatusState) (e : String),
       (fetchStatus s (Except.error e)).systemStatus = s.systemStatus ∧
         (fetchStatus s (Except.error e)).error = some fetchStatusErrorMsg) ∧
    (∀ (s : AppStatusState) (d : SystemStatus),
       (fetchStatus s (Except.ok d)).systemStatus = some d ∧
         (fetchStatus s (Except.ok d)).error = none) :=
  ⟨fun _ _ => ⟨rfl, rfl⟩, fun _ _ => ⟨rfl, rfl⟩⟩

/-- C10: the Dashboard's adaptation-progress computation never divides by
zero — for a non-positive `seal_policy.feedback_threshold` the rendered
progress is 0, and for a positive threshold it is
`(feedback_count / feedback_threshold) * 100`. -/
theorem c10_progress_guard :
    ∀ s : SystemStatus,
      (s.seal_policy.feedback_threshold ≤ 0 →
        (dashboard (some s)).progress = some 0) ∧
      (0 < s.seal_policy.feedback_threshold →
        (dashboard (some s)).progress =
          some (s.seal_policy.feedback_count /
            s.seal_policy.feedback_threshold * 100)) := by
  intro s
  constructor
  · intro h
    simp [dashboard, DashboardRender.progress, progressPercentage,
      not_lt.mpr h]
  · intro h
    simp [dashboard, DashboardRender.progress, progressPercentage, h]

/-- C10 witness: a zero threshold renders 0; a threshold of four with one
submission renders 25. -/
theorem c10_progress_guard_witness :
    (dashboard (some sampleStatusZero)).progress = some 0 ∧
      (dashboard (some sampleStatusFour)).progress =
        some (sampleStatusFour.seal_policy.feedback_count /
          sampleStatusFour.seal_policy.feedback_threshold * 100) :=
  ⟨(c10_progress_guard sampleStatusZero).1 (by norm_num [sampleStatusZero]),
   (c10_progress_guard sampleStatusFour).2 (by norm_num [sampleStatusFour])⟩
